import Mathlib

/-!
Shallow embedding of the two programs of `simple-http-todolist`:

* `src/web-api.go` — a gin HTTP service with two static JSON routes
  (`GET /` and `GET /show-tasks`);
* `src/unnamed/part_000` — a one-shot GORM seeder/reporter that inserts
  three literal `User` rows, reads them back, prints one line per row and
  a final JSON line.

The external collaborators (the gin router dispatch, the relational store
behind GORM, `encoding/json`) are modelled explicitly; every definition is
annotated with the source construct it embeds.
-/

set_option autoImplicit false

namespace TodoList

/-! ## JSON values and Go `encoding/json` rendering

`gin.Context.JSON` and `json.Marshal` both serialize through Go's
`encoding/json`, producing compact output (no whitespace); struct fields
serialize in declaration order, and a `nil` slice serializes as `null`.
-/

/-- A JSON value, as produced by Go's `encoding/json` for the data of this
repository (strings, unsigned integers, arrays, objects, and `null` for a
nil slice). -/
inductive Json where
  | null : Json
  | num : Nat → Json
  | str : String → Json
  | arr : List Json → Json
  | obj : List (String × Json) → Json
deriving Repr

/-- `encoding/json` string escaping for the characters that can occur in
this repository's data: a quote or a backslash is backslash-escaped, every
other character is emitted as itself. -/
def escapeChar (c : Char) : String :=
  if c = '"' then "\\\"" else if c = '\\' then "\\\\" else String.mk [c]

/-- Escape every character of a string for JSON output. -/
def escapeString (s : String) : String :=
  String.join (s.toList.map escapeChar)

/-- A JSON string literal: quoted and escaped. -/
def renderString (s : String) : String :=
  "\"" ++ escapeString s ++ "\""

mutual

/-- Compact serialization of a JSON value, as `encoding/json` emits it
(no spaces, members in order). -/
def render : Json → String
  | .null => "null"
  | .num n => toString n
  | .str s => renderString s
  | .arr xs => "[" ++ renderElems xs ++ "]"
  | .obj kvs => "\x7b" ++ renderMembers kvs ++ "\x7d"

/-- Comma-separated serialization of array elements. -/
def renderElems : List Json → String
  | [] => ""
  | [x] => render x
  | x :: y :: rest => render x ++ "," ++ renderElems (y :: rest)

/-- Comma-separated serialization of object members, each `"key":value`. -/
def renderMembers : List (String × Json) → String
  | [] => ""
  | [kv] => renderString kv.1 ++ ":" ++ render kv.2
  | kv :: m :: rest => renderString kv.1 ++ ":" ++ render kv.2 ++ "," ++ renderMembers (m :: rest)

end

/-! ## Task Service (`src/web-api.go`) -/

/-- `var shortGolang = "Watch Go crash course"` (web-api.go line 10). -/
def shortGolang : String := "Watch Go crash course"

/-- `var fullGolang = "Watch Nana's Golang Full Course"` (web-api.go line 11). -/
def fullGolang : String := "Watch Nana's Golang Full Course"

/-- `var rewardDessert = "Reward myself with a donut"` (web-api.go line 12). -/
def rewardDessert : String := "Reward myself with a donut"

/-- `var taskItems = []string{...}` (web-api.go line 13): the package-level
task list. -/
def taskItems : List String := [shortGolang, fullGolang, rewardDessert]

/-- The observable state of the Task Service process: the package-level
task list is its only data. -/
structure ServiceState where
  taskItems : List String
deriving Repr, DecidableEq

/-- The state at process start: `taskItems` holds the three literals. -/
def initState : ServiceState :=
  { taskItems := taskItems }

/-- An HTTP response as observed by a client: status code and body bytes. -/
structure Response where
  status : Nat
  body : String
deriving Repr, DecidableEq

/-- An incoming HTTP request: method and path (the handlers of this
program read nothing else). -/
structure Request where
  method : String
  path : String
deriving Repr, DecidableEq

/-- `showTask` (web-api.go lines 25-29): responds 200 with
`gin.H{"task": taskItems}` serialized as JSON; the state is untouched. -/
def showTask (s : ServiceState) : ServiceState × Response :=
  (s, { status := 200, body := render (.obj [("task", .arr (s.taskItems.map .str))]) })

/-- `helloUser` (web-api.go lines 31-35): responds 200 with
`gin.H{"message": "Hello user. Welcome to our Todolist App!"}`; the state
is untouched. -/
def helloUser (s : ServiceState) : ServiceState × Response :=
  (s, { status := 200, body := render (.obj [("message", .str "Hello user. Welcome to our Todolist App!")]) })

/-- The route table registered in `main` (web-api.go lines 19-20):
`router.GET("/", helloUser)` and `router.GET("/show-tasks", showTask)`. -/
def routes : List (String × String) :=
  [("GET", "/"), ("GET", "/show-tasks")]

/-- Gin's default response for a request matching no registered route:
status 404 with the plain-text body `404 page not found`. -/
def defaultNotFound : Response :=
  { status := 404, body := "404 page not found" }

/-- Gin dispatch over the two registered routes: a request is served by
the handler registered for its exact method and path, and by the engine's
default not-found response otherwise. -/
def handleRequest (s : ServiceState) (m p : String) : ServiceState × Response :=
  if m = "GET" ∧ p = "/" then helloUser s
  else if m = "GET" ∧ p = "/show-tasks" then showTask s
  else (s, defaultNotFound)

/-- Serve a sequence of requests, threading the process state. -/
def runRequests (s : ServiceState) : List Request → ServiceState
  | [] => s
  | r :: rs => runRequests (handleRequest s r.method r.path).1 rs

/-! ## User Seeder/Reporter (`src/unnamed/part_000`) -/

/-- `type User struct` (part_000 lines 12-16): `ID uint` (json tag `id`),
`Name string` (json tag `name`), `Email string` (json tag `email`), in
this declaration order. -/
structure User where
  ID : Nat
  Name : String
  Email : String
deriving Repr, DecidableEq

/-- `func (u *User) Display()` (part_000 lines 19-21): the line printed
for one user, `User: ID=<id>, Name=<name>, Email=<email>`. -/
def Display (u : User) : String :=
  "User: ID=" ++ toString u.ID ++ ", Name=" ++ u.Name ++ ", Email=" ++ u.Email

/-- The three literal records of `CreateDummyUsers` (part_000 lines 36-40). -/
def dummyUsers : List User :=
  [{ ID := 1, Name := "Alice Johnson", Email := "alice@example.com" },
   { ID := 2, Name := "Bob Smith", Email := "bob@example.com" },
   { ID := 3, Name := "Charlie Brown", Email := "charlie@example.com" }]

/-- The external relational store behind `gorm.DB`, modelled as the rows
of the `users` table plus one failure flag for each of the two fallible
operations the source performs against it (the batch insert of
`s.DB.Create` and the select of `s.DB.Find`). -/
structure Store where
  users : List User
  createFails : Bool
  findFails : Bool
deriving Repr, DecidableEq

/-- `db.AutoMigrate(&User{})` (part_000 line 60): ensures the `users`
table exists; on the modelled store the table always exists, so this is
the identity (its error result is discarded by the source). -/
def AutoMigrate (db : Store) : Store := db

/-- `s.DB.Create(&dummyUsers)`: the batch insert against the external
store. On success the rows are appended to the table; on failure the
table is unchanged. The `Bool` is the error indicator of the returned
`*gorm.DB`, which the source discards. -/
def dbCreate (db : Store) (batch : List User) : Store × Bool :=
  if db.createFails then (db, true)
  else ({ db with users := db.users ++ batch }, false)

/-- `func (s *UserServiceImpl) CreateDummyUsers()` (part_000 lines 35-44):
batch-inserts the three literal records in one `Create` call, discards its
error result, and unconditionally prints
`Dummy users created successfully.`. Returns the store after the call and
the stdout lines produced. -/
def CreateDummyUsers (db : Store) : Store × List String :=
  ((dbCreate db dummyUsers).1, ["Dummy users created successfully."])

/-- `s.DB.Find(&users)` on a nil `[]User` destination. Modelled from the
gorm v2 library (scan.go): for a slice destination the query first sets
the destination to a freshly allocated empty slice
(`reflect.MakeSlice(type, 0, 20)`, non-nil) and then appends one element
per row, so a successful query over zero rows yields `some []`, the empty
non-nil slice; only a failed query leaves the destination untouched, i.e.
the nil slice `none`. -/
def gormFind (db : Store) : Option (List User) :=
  if db.findFails then none else some db.users

/-- `func (s *UserServiceImpl) GetAllUsers() []User` (part_000 lines
47-51): `var users []User; s.DB.Find(&users); return users`. The result
is a Go slice: `none` models the nil slice, `some l` a non-nil slice with
elements `l`. -/
def GetAllUsers (db : Store) : Option (List User) :=
  gormFind db

/-- Ranging over a Go slice: a nil slice ranges over nothing. -/
def sliceToList : Option (List User) → List User
  | none => []
  | some l => l

/-- `json.Marshal` of one `User`: an object with keys `id`, `name`,
`email` in struct declaration order. -/
def marshalUser (u : User) : Json :=
  .obj [("id", .num u.ID), ("name", .str u.Name), ("email", .str u.Email)]

/-- `json.Marshal` of a `[]User` slice: `null` for a nil slice, a JSON
array of the marshalled elements otherwise. -/
def marshalUsers : Option (List User) → Json
  | none => .null
  | some l => .arr (l.map marshalUser)

/-- The reporting tail of `main` (part_000 lines 69-77): print
`All Users:`, then one `Display` line per element of the fetched slice,
then `Users JSON: ` followed by the `json.Marshal` of the slice (the
marshal error is discarded by the source). -/
def reportUsers (users : Option (List User)) : List String :=
  ["All Users:"] ++ (sliceToList users).map Display
    ++ ["Users JSON: " ++ render (marshalUsers users)]

/-- `func main()` of the seeder (part_000 lines 53-78). The argument is
the connection attempt of `gorm.Open`: `none` when the connection cannot
be established, `some db` when it yields the store `db`. The result is
the list of stdout lines printed, paired with `some msg` when the process
dies by `panic(msg)` and `none` when it runs to completion. -/
def mainSeeder : Option Store → List String × Option String
  | none => ([], some "Failed to connect to database")
  | some db0 =>
    let db1 := AutoMigrate db0
    let res := CreateDummyUsers db1
    let users := GetAllUsers res.1
    (res.2 ++ reportUsers users, none)

/-- A fresh store: empty `users` table, both operations succeeding. -/
def freshStore : Store :=
  { users := [], createFails := false, findFails := false }

/-! ## The `encoding/json` reader for `[]User` (for the round-trip claim)

`json.Unmarshal` back into `[]User`, implemented as a character-level
reader of the exact compact format `json.Marshal` emits for this type.
-/

/-- Consume an expected literal character sequence. -/
def readLit : List Char → List Char → Option (List Char)
  | [], cs => some cs
  | l :: ls, c :: cs => if c = l then readLit ls cs else none
  | _ :: _, [] => none

/-- Consume a run of digits, accumulating their value. -/
def readDigits (acc : Nat) : List Char → Nat × List Char
  | c :: cs =>
    if c.isDigit then readDigits (acc * 10 + (c.toNat - 48)) cs
    else (acc, c :: cs)
  | [] => (acc, [])

/-- Read a decimal natural number (at least one digit). -/
def readNat : List Char → Option (Nat × List Char)
  | c :: cs => if c.isDigit then some (readDigits (c.toNat - 48) cs) else none
  | [] => none

/-- Read the characters of a JSON string body up to its closing quote,
undoing backslash escapes. -/
def readStringChars : List Char → Option (List Char × List Char)
  | [] => none
  | '"' :: cs => some ([], cs)
  | '\\' :: c :: cs => do
    let (s, rest) ← readStringChars cs
    some (c :: s, rest)
  | c :: cs => do
    let (s, rest) ← readStringChars cs
    some (c :: s, rest)

/-- Read a quoted JSON string literal. -/
def readJsonString : List Char → Option (String × List Char)
  | '"' :: cs => do
    let (s, rest) ← readStringChars cs
    some (String.mk s, rest)
  | _ => none

/-- Read one serialized `User` object,
`\x7b"id":N,"name":S,"email":S\x7d`. -/
def readUser (cs0 : List Char) : Option (User × List Char) := do
  let cs1 ← readLit ("\x7b\"id\":".toList) cs0
  let (i, cs2) ← readNat cs1
  let cs3 ← readLit (",\"name\":".toList) cs2
  let (n, cs4) ← readJsonString cs3
  let cs5 ← readLit (",\"email\":".toList) cs4
  let (e, cs6) ← readJsonString cs5
  let cs7 ← readLit ("\x7d".toList) cs6
  some ({ ID := i, Name := n, Email := e }, cs7)

/-- Read the remaining elements of a `User` array after its first
element: either the closing bracket, or a comma and another element.
Fueled by the input length. -/
def readUsersRest : Nat → List Char → Option (List User × List Char)
  | 0, _ => none
  | _ + 1, ']' :: cs => some ([], cs)
  | fuel + 1, ',' :: cs => do
    let (u, cs2) ← readUser cs
    let (us, cs3) ← readUsersRest fuel cs2
    some (u :: us, cs3)
  | _ + 1, _ => none

/-- `json.Unmarshal` of a compact JSON text into `[]User`: `null` yields
the nil slice, an array yields its parsed elements; anything else (or
trailing input) is rejected. -/
def parseUsers (s : String) : Option (List User) :=
  match s.toList with
  | ['n', 'u', 'l', 'l'] => some []
  | ['[', ']'] => some []
  | '[' :: cs => do
    let (u, cs2) ← readUser cs
    let (us, cs3) ← readUsersRest (cs2.length + 1) cs2
    if cs3 = [] then some (u :: us) else none
  | _ => none

/-! ## Helper lemmas -/

theorem handleRequest_fst (s : ServiceState) (m p : String) :
    (handleRequest s m p).1 = s := by
  unfold handleRequest
  split
  · rfl
  split
  · rfl
  · rfl

theorem runRequests_id : ∀ (reqs : List Request) (s : ServiceState), runRequests s reqs = s
  | [], _ => rfl
  | r :: rs, s => by
    show runRequests (handleRequest s r.method r.path).1 rs = s
    rw [handleRequest_fst]
    exact runRequests_id rs s

/-! ## Claim theorems -/

/-- C1: every GET request to `/show-tasks`, in any state the Task Service
can reach, returns status 200 with the JSON object whose single key
`task` maps to the three task strings in their fixed literal order, the
state is unchanged, and the response body is byte-identical across any
two calls. -/
theorem showTasks_fixed_response (reqs reqs2 : List Request) :
    handleRequest (runRequests initState reqs) "GET" "/show-tasks" =
      (runRequests initState reqs,
        { status := 200,
          body := "\x7b\"task\":[\"Watch Go crash course\",\"Watch Nana's Golang Full Course\",\"Reward myself with a donut\"]\x7d" }) ∧
    (handleRequest (runRequests initState reqs) "GET" "/show-tasks").2 =
      (handleRequest (runRequests initState reqs2) "GET" "/show-tasks").2 := by
  rw [runRequests_id, runRequests_id]
  exact ⟨rfl, rfl⟩

/-- C2: every GET request to `/`, in any state the Task Service can
reach, returns status 200 with the JSON object
`\x7b"message":"Hello user. Welcome to our Todolist App!"\x7d`, leaves
the state unchanged (no side effects), and is byte-identical across any
two calls. -/
theorem root_greeting_response (reqs reqs2 : List Request) :
    handleRequest (runRequests initState reqs) "GET" "/" =
      (runRequests initState reqs,
        { status := 200,
          body := "\x7b\"message\":\"Hello user. Welcome to our Todolist App!\"\x7d" }) ∧
    (handleRequest (runRequests initState reqs) "GET" "/").2 =
      (handleRequest (runRequests initState reqs2) "GET" "/").2 := by
  rw [runRequests_id, runRequests_id]
  exact ⟨rfl, rfl⟩

/-- C3: running `CreateDummyUsers` against a fresh empty `users` table
leaves the table holding exactly the three rows with ids 1, 2, 3 and the
literal names and emails, inserted by the single batch `Create` call. -/
theorem seeding_fresh_table :
    (CreateDummyUsers freshStore).1.users =
      [{ ID := 1, Name := "Alice Johnson", Email := "alice@example.com" },
       { ID := 2, Name := "Bob Smith", Email := "bob@example.com" },
       { ID := 3, Name := "Charlie Brown", Email := "charlie@example.com" }] := rfl

/-- C4 counterexample: a run whose batch insert fails is not fatal — the
process still prints `Dummy users created successfully.`, continues with
all subsequent steps, and completes without a panic (`none`). -/
theorem insert_failure_not_fatal_cex :
    mainSeeder (some { users := [], createFails := true, findFails := false }) =
      (["Dummy users created successfully.", "All Users:", "Users JSON: []"], none) := rfl

/-- C4 amended: a failed batch insert (and the discarded marshal error)
is silently ignored — for every connected store the run completes without
a panic and its first stdout line is the success message regardless of
whether the insert failed; only a failed connection is fatal. -/
theorem insert_failure_ignored (db : Store) :
    (mainSeeder (some db)).2 = none ∧
    (mainSeeder (some db)).1.head? = some "Dummy users created successfully." ∧
    mainSeeder none = ([], some "Failed to connect to database") :=
  ⟨rfl, rfl, rfl⟩

/-- C5: on a successful run (insert and query both succeed), the stdout
lines are, in order: the success line, `All Users:`, one `Display` line
per fetched record, and the `Users JSON:` line holding the records
serialized as a JSON array of objects with keys `id`, `name`, `email` in
that order. -/
theorem mainSeeder_success_output (db : Store)
    (hc : db.createFails = false) (hf : db.findFails = false) :
    mainSeeder (some db) =
      (["Dummy users created successfully.", "All Users:"]
        ++ (db.users ++ dummyUsers).map Display
        ++ ["Users JSON: " ++ render (Json.arr ((db.users ++ dummyUsers).map marshalUser))],
       none) := by
  simp [mainSeeder, AutoMigrate, CreateDummyUsers, dbCreate, GetAllUsers, gormFind,
    reportUsers, sliceToList, marshalUsers, hc, hf]

/-- C5 witness: the successful run against a fresh store, with every line
evaluated to its literal value. -/
theorem mainSeeder_success_output_witness :
    freshStore.createFails = false ∧ freshStore.findFails = false ∧
    mainSeeder (some freshStore) =
      (["Dummy users created successfully.",
        "All Users:",
        "User: ID=1, Name=Alice Johnson, Email=alice@example.com",
        "User: ID=2, Name=Bob Smith, Email=bob@example.com",
        "User: ID=3, Name=Charlie Brown, Email=charlie@example.com",
        "Users JSON: [\x7b\"id\":1,\"name\":\"Alice Johnson\",\"email\":\"alice@example.com\"\x7d,\x7b\"id\":2,\"name\":\"Bob Smith\",\"email\":\"bob@example.com\"\x7d,\x7b\"id\":3,\"name\":\"Charlie Brown\",\"email\":\"charlie@example.com\"\x7d]"],
       none) := by
  refine ⟨rfl, rfl, ?_⟩
  rw [mainSeeder_success_output freshStore rfl rfl]
  rfl

/-- C6: when the connection to the relational store cannot be
established, the seeder terminates by panic immediately and emits no
stdout line at all. -/
theorem connection_failure_fatal :
    mainSeeder none = ([], some "Failed to connect to database") := rfl

/-- C7: the sequence fetched after seeding a fresh store is exactly the
three literal seed records, and serializing it with `json.Marshal` and
parsing the text back yields records equal, by id, name and email, to
those three literal records (round-trip identity). -/
theorem users_json_roundtrip :
    GetAllUsers (CreateDummyUsers (AutoMigrate freshStore)).1 = some dummyUsers ∧
    parseUsers (render (marshalUsers (GetAllUsers (CreateDummyUsers (AutoMigrate freshStore)).1))) =
      some dummyUsers :=
  ⟨rfl, by decide⟩

/-- C8: the task list is invariant — after any sequence of requests the
state still holds the three literals in source order, the list has
exactly three elements, and `showTask` observes the same list `taskItems`
that `main` registered at process start. -/
theorem taskItems_invariant (reqs : List Request) :
    (runRequests initState reqs).taskItems = [shortGolang, fullGolang, rewardDessert] ∧
    (runRequests initState reqs).taskItems = taskItems ∧
    (runRequests initState reqs).taskItems.length = 3 ∧
    (showTask (runRequests initState reqs)).2.body =
      render (Json.obj [("task", Json.arr (taskItems.map Json.str))]) := by
  rw [runRequests_id]
  exact ⟨rfl, rfl, rfl, rfl⟩

/-- C9: the route table holds exactly the two routes `GET /` and
`GET /show-tasks`, and a request to any other method/path pair is
answered by the engine's default not-found response, with the state
unchanged. -/
theorem two_routes_default_notfound (s : ServiceState) (m p : String)
    (h : (m, p) ∉ routes) :
    routes = [("GET", "/"), ("GET", "/show-tasks")] ∧
    handleRequest s m p = (s, defaultNotFound) := by
  refine ⟨rfl, ?_⟩
  simp only [routes, List.mem_cons, List.mem_singleton, List.not_mem_nil, or_false,
    Prod.mk.injEq, not_or] at h
  unfold handleRequest
  rw [if_neg h.1, if_neg h.2]

/-- C9 witness: `GET /unknown` matches no route and gets the default 404
response. -/
theorem two_routes_default_notfound_witness :
    ("GET", "/unknown") ∉ routes ∧
    handleRequest initState "GET" "/unknown" = (initState, defaultNotFound) := by
  have hmem : ("GET", "/unknown") ∉ routes := by decide
  exact ⟨hmem, (two_routes_default_notfound initState "GET" "/unknown" hmem).2⟩

/-- C10 counterexample: against a store whose query succeeds over zero
rows, `GetAllUsers` returns the empty non-nil slice (`some []`, not the
nil slice `none`), and the reporting tail ends with `Users JSON: []`
rather than `Users JSON: null`. -/
theorem zero_rows_not_null_cex :
    freshStore.users = [] ∧ freshStore.findFails = false ∧
    GetAllUsers freshStore = some [] ∧
    GetAllUsers freshStore ≠ none ∧
    reportUsers (GetAllUsers freshStore) = ["All Users:", "Users JSON: []"] ∧
    reportUsers (GetAllUsers freshStore) ≠ ["All Users:", "Users JSON: null"] := by
  refine ⟨rfl, rfl, rfl, ?_, rfl, ?_⟩ <;> decide

/-- C10 amended: a successful query over zero rows yields the empty
non-nil slice, so no per-record line is printed and the final line is
`Users JSON: []`; the final line is `Users JSON: null` exactly when the
slice is still nil, which happens only when the query itself fails. -/
theorem zero_rows_reporting (db : Store)
    (hf : db.findFails = false) (hu : db.users = []) :
    GetAllUsers db = some [] ∧
    reportUsers (GetAllUsers db) = ["All Users:", "Users JSON: []"] ∧
    reportUsers none = ["All Users:", "Users JSON: null"] := by
  have hg : GetAllUsers db = some [] := by
    simp [GetAllUsers, gormFind, hf, hu]
  refine ⟨hg, ?_, rfl⟩
  rw [hg]
  rfl

/-- C10 amended witness: the fresh store satisfies both hypotheses and
the reporting lines evaluate as stated. -/
theorem zero_rows_reporting_witness :
    freshStore.findFails = false ∧ freshStore.users = [] ∧
    (GetAllUsers freshStore = some [] ∧
      reportUsers (GetAllUsers freshStore) = ["All Users:", "Users JSON: []"] ∧
      reportUsers none = ["All Users:", "Users JSON: null"]) :=
  ⟨rfl, rfl, zero_rows_reporting freshStore rfl rfl⟩

end TodoList
